import Mathlib

/-!
Verification of the ResuScan frontend (src/frontend/src) against its
specification. The JavaScript sources are shallowly embedded: each React
handler or service function becomes a pure Lean function over explicit
inputs; JavaScript truthiness, `String.prototype.trim`, and the axios
outcome split (`error.response` / `error.request` / other) are modelled
explicitly.
-/

namespace ResuScan

/-- A JSON value, as produced by the backend and consumed by the client.
`null` models both JavaScript `null` and an absent/`undefined` value where
the distinction does not matter; absent object fields are modelled by
`getField` returning `none`. -/
inductive Json where
  | null : Json
  | bool (b : Bool) : Json
  | num (n : Int) : Json
  | str (s : String) : Json
  | arr (elems : List Json) : Json
  | obj (fields : List (String × Json)) : Json

/-- First-match field lookup in a JSON object field list. -/
def lookupField : List (String × Json) → String → Option Json
  | [], _ => none
  | (k, v) :: rest, name => if k = name then some v else lookupField rest name

/-- JavaScript property access `j.name`: `none` models `undefined`
(non-objects and missing fields). -/
def Json.getField : Json → String → Option Json
  | Json.obj fields, name => lookupField fields name
  | _, _ => none

/-- Two-step property access `j.a.b` (with `undefined` propagation). -/
def Json.getPath2 (j : Json) (a b : String) : Option Json :=
  match j.getField a with
  | none => none
  | some x => x.getField b

/-- JavaScript truthiness of a JSON value. -/
def jsTruthy : Json → Bool
  | Json.null => false
  | Json.bool b => b
  | Json.num n => n != 0
  | Json.str s => s != ""
  | Json.arr _ => true
  | Json.obj _ => true

/-- JavaScript truthiness of a possibly-`undefined` value. -/
def optTruthy : Option Json → Bool
  | none => false
  | some j => jsTruthy j

/-- The whitespace characters stripped by JavaScript
`String.prototype.trim` (the ASCII ones plus no-break space; the inputs in
scope contain no other Unicode whitespace). -/
def isJsWhitespace (c : Char) : Bool :=
  c = ' ' || c = '\t' || c = '\n' || c = '\r' || c = '\x0b' || c = '\x0c' || c = '\xa0'

/-- JavaScript `s.trim()`: strip leading and trailing whitespace. -/
def jsTrim (s : String) : String :=
  String.mk (((s.data.dropWhile isJsWhitespace).reverse.dropWhile isJsWhitespace).reverse)

/-- JavaScript `s.length` (code-unit count; equal to the character count
for the inputs in scope). -/
def jsLength (s : String) : Nat :=
  s.data.length

/-- A browser `File` object: the fields the frontend reads (`name`,
`type`, `size` in bytes). -/
structure JFile where
  name : String
  type : String
  size : Nat
deriving DecidableEq

/-- Everything `ResultsDisplay` reads out of the response record in order
to render it: each field is the value found at the corresponding access
path (`none` models `undefined`). -/
structure Rendered where
  overall_score : Option Json
  keyword_score : Option Json
  tech_skill_score : Option Json
  keyword_matches : Option Json
  keyword_misses : Option Json
  tech_skill_matches : Option Json
  tech_skill_misses : Option Json
  sections_found : Option Json
  strong_verbs_count : Option Json
  recommendations : Option Json
  filename : Option Json
  resume_length : Option Json
  job_description_length : Option Json
  total_job_keywords : Option Json
  total_job_tech_skills : Option Json

/-- The component `ResultsDisplay` (src/frontend/src/components/ResultsDisplay.js):
returns `null` (rendered as nothing) when `!results || !results.analysis`;
otherwise destructures `{ analysis, metadata } = results` and reads
`analysis.overall_score`, …, `analysis.structure.sections_found`,
`analysis.recommendations`, `metadata.filename`, … . The returned
`Rendered` records exactly the values read. -/
def ResultsDisplay (results : Option Json) : Option Rendered :=
  match results with
  | none => none
  | some r =>
    if optTruthy (r.getField "analysis") then
      some {
        overall_score := r.getPath2 "analysis" "overall_score"
        keyword_score := r.getPath2 "analysis" "keyword_score"
        tech_skill_score := r.getPath2 "analysis" "tech_skill_score"
        keyword_matches := r.getPath2 "analysis" "keyword_matches"
        keyword_misses := r.getPath2 "analysis" "keyword_misses"
        tech_skill_matches := r.getPath2 "analysis" "tech_skill_matches"
        tech_skill_misses := r.getPath2 "analysis" "tech_skill_misses"
        sections_found :=
          match r.getPath2 "analysis" "structure" with
          | none => none
          | some st => st.getField "sections_found"
        strong_verbs_count :=
          match r.getPath2 "analysis" "structure" with
          | none => none
          | some st => st.getField "strong_verbs_count"
        recommendations := r.getPath2 "analysis" "recommendations"
        filename := r.getPath2 "metadata" "filename"
        resume_length := r.getPath2 "metadata" "resume_length"
        job_description_length := r.getPath2 "metadata" "job_description_length"
        total_job_keywords := r.getPath2 "metadata" "total_job_keywords"
        total_job_tech_skills := r.getPath2 "metadata" "total_job_tech_skills" }
    else
      none

/-- The configured timeout of the axios instance, in milliseconds
(src/frontend/src/services/api.js, `axios.create({ ..., timeout: 30000 })`). -/
def apiTimeoutMs : Nat := 30000

/-- Outcome of an axios request, split the way the catch blocks in
api.js split it: success with a response body; `error.response` present
(server answered with an error status — the `error` field of the body is a
string when present, per the backend contract); `error.request` present
but no response (no answer received, which is also how axios surfaces a
timeout abort); anything else (request setup failure). -/
inductive AxiosOutcome where
  | success (data : Json) : AxiosOutcome
  | errorResponse (errField : Option String) : AxiosOutcome
  | errorNoResponse : AxiosOutcome
  | errorSetup : AxiosOutcome

/-- Modelled from the spec: the HTTP client aborts a request whose
wall-clock time exceeds the configured timeout budget; the abort surfaces
as a request-made-but-no-response error, never as data. (The abort itself
is performed by the axios library, which is outside this repository; only
the 30000 ms configuration is repository code.) -/
def requestOutcome (elapsedMs : Nat) (server : AxiosOutcome) : AxiosOutcome :=
  if apiTimeoutMs < elapsedMs then AxiosOutcome.errorNoResponse else server

/-- The function `analyzeResume` (src/frontend/src/services/api.js): returns
`response.data` on success; on failure throws an `Error` whose message is
the `error` field of the response body when the server
responded (falling back to the fixed text `Analysis failed` when the
field is absent — or empty, since the JavaScript or-operator falls
through on an empty string, modelled by the inner `if`), the fixed connection message when no response was received,
and a generic message otherwise. -/
def analyzeResume (outcome : AxiosOutcome) : Except String Json :=
  match outcome with
  | AxiosOutcome.success data => Except.ok data
  | AxiosOutcome.errorResponse errField =>
    Except.error (match errField with
      | some s => if s = "" then "Analysis failed" else s
      | none => "Analysis failed")
  | AxiosOutcome.errorNoResponse =>
    Except.error "Unable to connect to the server. Please try again."
  | AxiosOutcome.errorSetup =>
    Except.error "An unexpected error occurred"

/-- The capability record returned by `/api/supported-formats`. -/
structure FormatsInfo where
  supported_formats : List String
  max_file_size_mb : Nat
deriving DecidableEq

/-- The hard-coded fallback record in the catch block of
`getSupportedFormats` (src/frontend/src/services/api.js lines 58-61). -/
def fallbackFormats : FormatsInfo :=
  { supported_formats := ["pdf", "docx"], max_file_size_mb := 16 }

/-- Modelled from the spec: the body the capability endpoint reports when
it responds — the two accepted formats and the 16 MiB cap. The endpoint
itself is backend code absent from this repository slice. -/
def specCapabilityBody : FormatsInfo :=
  { supported_formats := ["pdf", "docx"], max_file_size_mb := 16 }

/-- The function `getSupportedFormats` (src/frontend/src/services/api.js): returns the
response body when the request succeeds and the fallback record on any
failure; it never rethrows. -/
def getSupportedFormats (response : Except String FormatsInfo) : FormatsInfo :=
  match response with
  | Except.ok data => data
  | Except.error _ => fallbackFormats

/-- The MIME types accepted by the uploader
(src/frontend/src/components/FileUploader.js line 37). -/
def allowedTypes : List String :=
  ["application/pdf",
   "application/vnd.openxmlformats-officedocument.wordprocessingml.document"]

/-- The uploader size bound in bytes (FileUploader.js line 44). -/
def maxSize : Nat := 16 * 1024 * 1024

/-- What the uploader function `handleFileSelect` does with an offered file. -/
inductive UploadOutcome where
  | ignored : UploadOutcome
  | typeRejected (msg : String) : UploadOutcome
  | sizeRejected (msg : String) : UploadOutcome
  | accepted (f : JFile) : UploadOutcome
deriving DecidableEq

/-- Whether `onFileSelect` was invoked (the file became the selection). -/
def UploadOutcome.passedOn : UploadOutcome → Bool
  | UploadOutcome.accepted _ => true
  | _ => false

/-- The uploader function `handleFileSelect` (src/frontend/src/components/FileUploader.js lines
33-51): returns early on a null file; alerts and returns when the MIME
type is not allowed; alerts and returns when `file.size > maxSize`;
otherwise calls `onFileSelect(file)`. -/
def handleFileSelect (file : Option JFile) : UploadOutcome :=
  match file with
  | none => UploadOutcome.ignored
  | some f =>
    if f.type ∉ allowedTypes then
      UploadOutcome.typeRejected "Please select a PDF or DOCX file."
    else if maxSize < f.size then
      UploadOutcome.sizeRejected "File size must be less than 16MB."
    else
      UploadOutcome.accepted f

/-- The per-keystroke validity indicator of `JobInput`
(src/frontend/src/components/JobInput.js lines 14-16):
`characterCount = value.length`, `minLength = 50`,
`isValid = characterCount >= minLength` — the raw, untrimmed length. -/
def jobInputIsValid (value : String) : Bool :=
  50 ≤ jsLength value

/-- The validation error set when no file is selected (App.js line 34). -/
def noFileMsg : String := "Please select a resume file."

/-- The validation error set when the job description is too short
(App.js line 39). -/
def tooShortMsg : String :=
  "Please provide a detailed job description (at least 50 characters)."

/-- The App.js line 38 guard
`!jobDescription || jobDescription.trim().length < 50`. -/
def jdTooShort (jd : String) : Bool :=
  jd = "" || jsLength (jsTrim jd) < 50

/-- What the validation prologue of `handleAnalyze` (App.js lines 32-41)
does before any request is issued. -/
inductive AnalyzeAction where
  | rejectNoFile (msg : String) : AnalyzeAction
  | rejectShortJd (msg : String) : AnalyzeAction
  | submit (file : JFile) (jd : String) : AnalyzeAction
deriving DecidableEq

/-- The validation prologue of `handleAnalyze` (App.js lines 32-48): with
no file selected it sets the no-file error; with
`!jobDescription || jobDescription.trim().length < 50` it sets the
too-short error; otherwise it submits the file with the trimmed job
description (`analyzeResume(selectedFile, jobDescription.trim())`). -/
def handleAnalyzeValidation (selectedFile : Option JFile) (jd : String) :
    AnalyzeAction :=
  match selectedFile with
  | none => AnalyzeAction.rejectNoFile noFileMsg
  | some f =>
    if jdTooShort jd then AnalyzeAction.rejectShortJd tooShortMsg
    else AnalyzeAction.submit f (jsTrim jd)

/-- The check `isReadyToAnalyze` (App.js line 64):
`selectedFile && jobDescription.trim().length >= 50`. -/
def isReadyToAnalyze (selectedFile : Option JFile) (jd : String) : Bool :=
  selectedFile.isSome && 50 ≤ jsLength (jsTrim jd)

/-- The App.js catch-block display: the thrown message when non-empty,
otherwise the fixed retry text (the JavaScript or-operator falls through
on an empty message). -/
def displayedError (m : String) : String :=
  if m = "" then "Analysis failed. Please try again." else m

/-- The state hooks of the App component (App.js lines 14-18). -/
structure AppState where
  selectedFile : Option JFile
  jobDescription : String
  isAnalyzing : Bool
  results : Option Json
  error : Option String

/-- The initial hook values (App.js lines 14-18). -/
def initialState : AppState :=
  { selectedFile := none, jobDescription := "", isAnalyzing := false,
    results := none, error := none }

/-- The App handler `handleFileSelect` (App.js lines 20-24): store the file (or
null on removal) and clear error and results. -/
def appHandleFileSelect (s : AppState) (file : Option JFile) : AppState :=
  { s with selectedFile := file, error := none, results := none }

/-- The App handler `handleJobDescriptionChange` (App.js lines 26-30): store the text and
clear error and results. -/
def appHandleJobChange (s : AppState) (value : String) : AppState :=
  { s with jobDescription := value, error := none, results := none }

/-- The state right after `setIsAnalyzing(true); setError(null);
setResults(null)` (App.js lines 43-45). -/
def analyzingState (s : AppState) : AppState :=
  { s with isAnalyzing := true, error := none, results := none }

/-- One complete run of `handleAnalyze` (App.js lines 32-55), given the
network outcome of the awaited request: the validation prologue may stop
with an error; otherwise the Analyzing state is entered, the request
runs, and the try/catch/finally stores the results or the displayed error
message and resets `isAnalyzing`. -/
def handleAnalyzeRun (s : AppState) (net : AxiosOutcome) : AppState :=
  match s.selectedFile with
  | none => { s with error := some noFileMsg }
  | some _ =>
    if jdTooShort s.jobDescription then
      { s with error := some tooShortMsg }
    else
      let inter := analyzingState s
      match analyzeResume net with
      | Except.ok r => { inter with results := some r, isAnalyzing := false }
      | Except.error m =>
        { inter with error := some (displayedError m), isAnalyzing := false }

/-- The App handler `handleReset` (App.js lines 57-62). -/
def handleReset (_s : AppState) : AppState := initialState

/-- The events the App state reacts to. -/
inductive AppEvent where
  | fileSelect (file : Option JFile) : AppEvent
  | jobChange (value : String) : AppEvent
  | analyze (net : AxiosOutcome) : AppEvent
  | reset : AppEvent

/-- One step of the App state machine. -/
def step (s : AppState) (e : AppEvent) : AppState :=
  match e with
  | AppEvent.fileSelect f => appHandleFileSelect s f
  | AppEvent.jobChange v => appHandleJobChange s v
  | AppEvent.analyze net => handleAnalyzeRun s net
  | AppEvent.reset => handleReset s

/-- The states the App can reach from its initial hook values. -/
inductive Reachable : AppState → Prop where
  | init : Reachable initialState
  | step {s : AppState} (e : AppEvent) : Reachable s → Reachable (step s e)

/-! Concrete test data. -/

/-- A 50-character all-whitespace job description. -/
def ws50 : String := String.mk (List.replicate 50 ' ')

/-- A 49-character job description with no surrounding whitespace. -/
def a49 : String := String.mk (List.replicate 49 'a')

/-- A 50-character job description with no surrounding whitespace. -/
def a50 : String := String.mk (List.replicate 50 'a')

/-- A well-formed PDF file object of modest size. -/
def testFile : JFile :=
  { name := "resume.pdf", type := "application/pdf", size := 12345 }

/-- A plain-text file object: neither supported MIME type. -/
def txtFile : JFile :=
  { name := "resume.txt", type := "text/plain", size := 1000 }

/-- A PDF file object of exactly 16 MiB. -/
def exact16MiBFile : JFile :=
  { name := "resume.pdf", type := "application/pdf", size := 16 * 1024 * 1024 }

/-- A response record serialized exactly as §6 of the spec prescribes: a
flat record whose top-level fields are precisely the ten wire names. -/
def flatResult : Json := Json.obj
  [("overall_score", Json.num 75),
   ("keyword_score", Json.num 70),
   ("tech_skill_score", Json.num 80),
   ("keyword_matches", Json.arr [Json.str "python"]),
   ("keyword_misses", Json.arr [Json.str "cloud"]),
   ("tech_skill_matches", Json.arr [Json.str "go"]),
   ("tech_skill_misses", Json.arr [Json.str "kubernetes"]),
   ("structure", Json.obj
     [("sections_found", Json.arr [Json.str "experience"]),
      ("strong_verbs_count", Json.num 3)]),
   ("recommendations", Json.arr [Json.str "Add kubernetes experience"]),
   ("metadata", Json.obj
     [("filename", Json.str "resume.pdf"),
      ("resume_length", Json.num 1200),
      ("job_description_length", Json.num 300),
      ("total_job_keywords", Json.num 10),
      ("total_job_tech_skills", Json.num 5)])]

/-- A concrete `analysis` sub-record in the nested shape the renderer
expects. -/
def analysisObj : Json := Json.obj
  [("overall_score", Json.num 75),
   ("keyword_score", Json.num 70),
   ("tech_skill_score", Json.num 80),
   ("keyword_matches", Json.arr [Json.str "python"]),
   ("keyword_misses", Json.arr [Json.str "cloud"]),
   ("tech_skill_matches", Json.arr [Json.str "go"]),
   ("tech_skill_misses", Json.arr [Json.str "kubernetes"]),
   ("structure", Json.obj
     [("sections_found", Json.arr [Json.str "experience"]),
      ("strong_verbs_count", Json.num 3)]),
   ("recommendations", Json.arr [Json.str "Add kubernetes experience"])]

/-- A concrete `metadata` sub-record. -/
def metadataObj : Json := Json.obj
  [("filename", Json.str "resume.pdf"),
   ("resume_length", Json.num 1200),
   ("job_description_length", Json.num 300),
   ("total_job_keywords", Json.num 10),
   ("total_job_tech_skills", Json.num 5)]

/-! Helper lemmas. -/

/-- The App.js line 38 guard holds exactly when the trimmed length is
under 50: the separate `!jobDescription` disjunct is absorbed, because
the empty string trims to length 0. -/
theorem jdTooShort_iff (jd : String) :
    jdTooShort jd = true ↔ jsLength (jsTrim jd) < 50 := by
  unfold jdTooShort
  rcases eq_or_ne jd "" with h | h
  · subst h; decide
  · simp [h]

/-! Claim theorems. -/

/-- Claim C1, counterexample: a record serialized flat, with exactly the
ten wire field names at top level (`overall_score` … `metadata`), is NOT
consumed under those names by the rendering function of the client —
`ResultsDisplay` renders nothing for it, because it looks for a top-level
`analysis` field. -/
theorem C1_counterexample : ResultsDisplay (some flatResult) = none := by rfl

/-- Claim C1, amended: the rendering function consumes a nested record —
it renders exactly when a top-level `analysis` field is present and
truthy, reading the wire names `overall_score`, `keyword_score`,
`tech_skill_score`, `keyword_matches`, `keyword_misses`,
`tech_skill_matches`, `tech_skill_misses`, `structure.sections_found`,
`structure.strong_verbs_count` and `recommendations` from that `analysis`
sub-record and the metadata names from the top-level `metadata`
sub-record, not from the top level of the result. -/
theorem C1_nested_consumption (a m : Json) (h : jsTruthy a = true) :
    ResultsDisplay (some (Json.obj [("analysis", a), ("metadata", m)])) =
      some {
        overall_score := a.getField "overall_score"
        keyword_score := a.getField "keyword_score"
        tech_skill_score := a.getField "tech_skill_score"
        keyword_matches := a.getField "keyword_matches"
        keyword_misses := a.getField "keyword_misses"
        tech_skill_matches := a.getField "tech_skill_matches"
        tech_skill_misses := a.getField "tech_skill_misses"
        sections_found :=
          match a.getField "structure" with
          | none => none
          | some st => st.getField "sections_found"
        strong_verbs_count :=
          match a.getField "structure" with
          | none => none
          | some st => st.getField "strong_verbs_count"
        recommendations := a.getField "recommendations"
        filename := m.getField "filename"
        resume_length := m.getField "resume_length"
        job_description_length := m.getField "job_description_length"
        total_job_keywords := m.getField "total_job_keywords"
        total_job_tech_skills := m.getField "total_job_tech_skills" } := by
  simp [ResultsDisplay, Json.getField, Json.getPath2, lookupField, optTruthy, h]

/-- Claim C1, witness: the nested-consumption theorem applied to a
concrete nested response. -/
theorem C1_witness :
    ResultsDisplay (some (Json.obj
        [("analysis", analysisObj), ("metadata", metadataObj)])) =
      some {
        overall_score := some (Json.num 75)
        keyword_score := some (Json.num 70)
        tech_skill_score := some (Json.num 80)
        keyword_matches := some (Json.arr [Json.str "python"])
        keyword_misses := some (Json.arr [Json.str "cloud"])
        tech_skill_matches := some (Json.arr [Json.str "go"])
        tech_skill_misses := some (Json.arr [Json.str "kubernetes"])
        sections_found := some (Json.arr [Json.str "experience"])
        strong_verbs_count := some (Json.num 3)
        recommendations := some (Json.arr [Json.str "Add kubernetes experience"])
        filename := some (Json.str "resume.pdf")
        resume_length := some (Json.num 1200)
        job_description_length := some (Json.num 300)
        total_job_keywords := some (Json.num 10)
        total_job_tech_skills := some (Json.num 5) } :=
  (C1_nested_consumption analysisObj metadataObj rfl).trans (by rfl)

/-- Claim C2: the client submits an analysis request exactly when a file
is selected and the trimmed length of the job description is at least 50
(hence a trimmed length of exactly 50 is accepted); any shorter trimmed
length with a file selected yields the too-short error instead of a
request (hence 49 is rejected). -/
theorem C2_submit_iff (file : Option JFile) (jd : String) :
    ((∃ f, handleAnalyzeValidation file jd = AnalyzeAction.submit f (jsTrim jd)) ↔
      (file.isSome = true ∧ 50 ≤ jsLength (jsTrim jd)))
    ∧ (∀ f, file = some f → jsLength (jsTrim jd) < 50 →
        handleAnalyzeValidation file jd = AnalyzeAction.rejectShortJd tooShortMsg) := by
  constructor
  · cases file with
    | none => simp [handleAnalyzeValidation]
    | some f =>
      by_cases h : jdTooShort jd
      · rw [jdTooShort_iff] at h
        simp [handleAnalyzeValidation, (jdTooShort_iff jd).mpr h]
        omega
      · rw [jdTooShort_iff] at h
        have hb : jdTooShort jd = false := by
          rw [Bool.eq_false_iff]
          intro hc
          exact h ((jdTooShort_iff jd).mp hc)
        simp [handleAnalyzeValidation, hb]
        omega
  · intro f hf hlen
    subst hf
    simp [handleAnalyzeValidation, (jdTooShort_iff jd).mpr hlen]

/-- Claim C2, witness: the boundary inputs — 49 non-whitespace characters
are rejected with the too-short error, and 50 are submitted. -/
theorem C2_witness :
    handleAnalyzeValidation (some testFile) a49 =
      AnalyzeAction.rejectShortJd tooShortMsg ∧
    (∃ f, handleAnalyzeValidation (some testFile) a50 =
      AnalyzeAction.submit f (jsTrim a50)) :=
  ⟨(C2_submit_iff (some testFile) a49).2 testFile rfl (by decide),
   (C2_submit_iff (some testFile) a50).1.mpr ⟨rfl, by decide⟩⟩

/-- Claim C3, counterexample: a job description of 50 whitespace
characters is judged valid by the per-keystroke indicator of `JobInput` (which
measures the untrimmed length) but rejected by the submission gate and
the ready check (which measure the trimmed length) — the two places do
not agree, and the all-whitespace string is not judged invalid
everywhere. -/
theorem C3_counterexample :
    jobInputIsValid ws50 = true ∧
    isReadyToAnalyze (some testFile) ws50 = false ∧
    handleAnalyzeValidation (some testFile) ws50 =
      AnalyzeAction.rejectShortJd tooShortMsg := by
  refine ⟨by decide, by decide, ?_⟩
  decide

/-- Claim C3, amended: the submission gate (`handleAnalyze`) and the
analyze-button readiness check (`isReadyToAnalyze`) both measure the
trimmed length of the job description and agree with each other; the
per-keystroke indicator in `JobInput` measures the untrimmed length, so
it disagrees with them exactly on strings whose raw length reaches 50 but
whose trimmed length does not. -/
theorem C3_gate_vs_indicator (file : Option JFile) (jd : String) :
    (isReadyToAnalyze file jd = true ↔
      (file.isSome = true ∧ 50 ≤ jsLength (jsTrim jd)))
    ∧ ((∃ f, handleAnalyzeValidation file jd = AnalyzeAction.submit f (jsTrim jd)) ↔
        isReadyToAnalyze file jd = true)
    ∧ (jobInputIsValid jd = true ↔ 50 ≤ jsLength jd) := by
  have hready : isReadyToAnalyze file jd = true ↔
      (file.isSome = true ∧ 50 ≤ jsLength (jsTrim jd)) := by
    simp [isReadyToAnalyze]
  refine ⟨hready, ?_, by simp [jobInputIsValid]⟩
  rw [hready]
  exact (C2_submit_iff file jd).1

/-- Claim C3, witness: the agreement theorem applied to the concrete
all-whitespace input, evaluating the untrimmed check there. -/
theorem C3_witness : jobInputIsValid ws50 = true :=
  (C3_gate_vs_indicator (some testFile) ws50).2.2.mpr (by decide)

/-- Claim C4, code bug: a file of exactly 16 MiB (16 × 1024 × 1024 bytes)
passes the uploader size check — the code tests `file.size > maxSize`,
so equality slips through and `onFileSelect` is called, although the
rejection message itself says the size must be less than 16MB. -/
theorem C4_exact_16MiB_accepted :
    exact16MiBFile.size = maxSize ∧
    handleFileSelect (some exact16MiBFile) =
      UploadOutcome.accepted exact16MiBFile := by
  constructor
  · rfl
  · decide

/-- Claim C5: a file whose MIME type is neither `application/pdf` nor the
zip-based word-processing type is rejected by the uploader with the type
error — `onFileSelect` is never invoked for it — and conversely any file
the uploader passes on has one of the two supported types. -/
theorem C5_type_gate (file : Option JFile) :
    (∀ f, file = some f → f.type ∉ allowedTypes →
      handleFileSelect file =
        UploadOutcome.typeRejected "Please select a PDF or DOCX file.")
    ∧ (∀ f, handleFileSelect file = UploadOutcome.accepted f →
        f.type ∈ allowedTypes) := by
  constructor
  · intro f hf hnot
    subst hf
    simp [handleFileSelect, hnot]
  · intro f hacc
    cases file with
    | none => simp [handleFileSelect] at hacc
    | some g =>
      by_cases ht : g.type ∈ allowedTypes
      · by_cases hs : maxSize < g.size
        · simp [handleFileSelect, ht, hs] at hacc
        · simp [handleFileSelect, ht, hs] at hacc
          subst hacc
          exact ht
      · simp [handleFileSelect, ht] at hacc

/-- Claim C5, witness: a plain-text file is rejected with the type
error. -/
theorem C5_witness :
    handleFileSelect (some txtFile) =
      UploadOutcome.typeRejected "Please select a PDF or DOCX file." :=
  (C5_type_gate (some txtFile)).1 txtFile rfl (by decide)

/-- Claim C6: `getSupportedFormats` always returns a capability record
(it rethrows nothing): the response body when the endpoint responds, and
the hard-coded `{supported_formats: [pdf, docx], max_file_size_mb: 16}`
fallback on any request failure; when the endpoint conforms to the
capability contract of the spec, every execution therefore hands the caller the two
accepted formats and the 16 MiB cap. -/
theorem C6_formats_total (resp : Except String FormatsInfo) :
    (∀ d, resp = Except.ok d → getSupportedFormats resp = d)
    ∧ (∀ e, resp = Except.error e → getSupportedFormats resp = fallbackFormats)
    ∧ ((∀ d, resp = Except.ok d → d = specCapabilityBody) →
        (getSupportedFormats resp).supported_formats = ["pdf", "docx"] ∧
        (getSupportedFormats resp).max_file_size_mb = 16) := by
  refine ⟨?_, ?_, ?_⟩
  · intro d hd; subst hd; rfl
  · intro e he; subst he; rfl
  · intro hconf
    cases resp with
    | ok d =>
      have hd := hconf d rfl
      subst hd
      exact ⟨rfl, rfl⟩
    | error e => exact ⟨rfl, rfl⟩

/-- Claim C6, witness: on a failed request the fallback record is
returned, carrying the two formats and the 16 MiB cap. -/
theorem C6_witness :
    getSupportedFormats (Except.error "network down") = fallbackFormats ∧
    (getSupportedFormats (Except.error "network down")).supported_formats =
      ["pdf", "docx"] ∧
    (getSupportedFormats (Except.error "network down")).max_file_size_mb = 16 :=
  ⟨(C6_formats_total (Except.error "network down")).2.1 "network down" rfl,
   (C6_formats_total (Except.error "network down")).2.2
     (fun d hd => by cases hd)⟩

/-- Claim C7: the API instance is configured with a 30000 ms timeout, and
a request whose wall-clock time exceeds that budget is aborted — it
surfaces through `analyzeResume` as a thrown error (the no-response
branch), never as returned data, regardless of what the server would
eventually have answered. -/
theorem C7_timeout_bound (elapsedMs : Nat) (server : AxiosOutcome)
    (h : apiTimeoutMs < elapsedMs) :
    apiTimeoutMs = 30000 ∧
    analyzeResume (requestOutcome elapsedMs server) =
      Except.error "Unable to connect to the server. Please try again." := by
  refine ⟨rfl, ?_⟩
  simp [requestOutcome, h, analyzeResume]

/-- Claim C7, witness: a request taking 30001 ms against a server that
would have answered successfully is surfaced as the timeout error. -/
theorem C7_witness :
    analyzeResume (requestOutcome 30001 (AxiosOutcome.success Json.null)) =
      Except.error "Unable to connect to the server. Please try again." :=
  (C7_timeout_bound 30001 (AxiosOutcome.success Json.null) (by decide)).2

/-- The inductive invariant of the App state: whenever results are
displayed, no error is displayed and the inputs that produced them are
still in place (a file is selected and the trimmed job description
reaches 50 characters). -/
def Inv (s : AppState) : Prop :=
  s.results.isSome = true →
    s.error = none ∧ s.selectedFile.isSome = true ∧
    50 ≤ jsLength (jsTrim s.jobDescription)

/-- Every App event preserves the invariant. -/
theorem inv_step (s : AppState) (e : AppEvent) (h : Inv s) : Inv (step s e) := by
  cases e with
  | fileSelect f =>
    intro hres
    simp [step, appHandleFileSelect] at hres
  | jobChange v =>
    intro hres
    simp [step, appHandleJobChange] at hres
  | reset =>
    intro hres
    simp [step, handleReset, initialState] at hres
  | analyze net =>
    cases hsel : s.selectedFile with
    | none =>
      intro hres
      simp [step, handleAnalyzeRun, hsel] at hres
      rcases h hres with ⟨_, hsome, _⟩
      rw [hsel] at hsome
      simp at hsome
    | some f =>
      by_cases hshort : jdTooShort s.jobDescription
      · intro hres
        simp [step, handleAnalyzeRun, hsel, hshort] at hres
        rcases h hres with ⟨_, _, hlen⟩
        have := (jdTooShort_iff s.jobDescription).mp hshort
        omega
      · have hb : jdTooShort s.jobDescription = false :=
          Bool.eq_false_iff.mpr hshort
        cases hres : analyzeResume net with
        | ok r =>
          intro _
          refine ⟨?_, ?_, ?_⟩
          · simp [step, handleAnalyzeRun, hsel, hb, hres, analyzingState]
          · simp [step, handleAnalyzeRun, hsel, hb, hres, analyzingState]
          · have hge : ¬ jsLength (jsTrim s.jobDescription) < 50 := fun hc =>
              hshort ((jdTooShort_iff s.jobDescription).mpr hc)
            simp [step, handleAnalyzeRun, hsel, hb, hres, analyzingState]
            omega
        | error m =>
          intro hres2
          simp [step, handleAnalyzeRun, hsel, hb, hres, analyzingState] at hres2

/-- Every reachable App state satisfies the invariant. -/
theorem inv_reachable (s : AppState) (h : Reachable s) : Inv s := by
  induction h with
  | init => intro hres; simp [initialState] at hres
  | step e _ ih => exact inv_step _ e ih

/-- Claim C8: a run of `handleAnalyze` that passes input validation first
enters the Analyzing state (in-flight flag set, results and error
cleared) and terminates with the flag reset in exactly one of Completed
(results set, error null) or Failed (error set, results null); and in
every reachable App state, results and error are never both non-null. -/
theorem C8_analyze_lifecycle :
    (∀ (s : AppState) (net : AxiosOutcome) (f : JFile),
      s.selectedFile = some f → 50 ≤ jsLength (jsTrim s.jobDescription) →
      ((analyzingState s).isAnalyzing = true ∧
       (analyzingState s).results = none ∧ (analyzingState s).error = none) ∧
      (handleAnalyzeRun s net).isAnalyzing = false ∧
      ((∃ r, (handleAnalyzeRun s net).results = some r ∧
             (handleAnalyzeRun s net).error = none) ∨
       (∃ m, (handleAnalyzeRun s net).error = some m ∧
             (handleAnalyzeRun s net).results = none)))
    ∧ (∀ s, Reachable s →
        ¬ (s.results.isSome = true ∧ s.error.isSome = true)) := by
  constructor
  · intro s net f hf hlen
    have hb : jdTooShort s.jobDescription = false := by
      rw [Bool.eq_false_iff]
      intro hc
      have := (jdTooShort_iff s.jobDescription).mp hc
      omega
    refine ⟨⟨rfl, rfl, rfl⟩, ?_, ?_⟩
    · cases hres : analyzeResume net with
      | ok r => simp [handleAnalyzeRun, hf, hb, hres, analyzingState]
      | error m => simp [handleAnalyzeRun, hf, hb, hres, analyzingState]
    · cases hres : analyzeResume net with
      | ok r =>
        left
        exact ⟨r, by simp [handleAnalyzeRun, hf, hb, hres, analyzingState],
                  by simp [handleAnalyzeRun, hf, hb, hres, analyzingState]⟩
      | error m =>
        right
        exact ⟨displayedError m,
               by simp [handleAnalyzeRun, hf, hb, hres, analyzingState],
               by simp [handleAnalyzeRun, hf, hb, hres, analyzingState]⟩
  · intro s hreach ⟨hres, herr⟩
    rcases inv_reachable s hreach hres with ⟨hnone, _, _⟩
    rw [hnone] at herr
    simp at herr

/-- A concrete App state that passes validation: a selected PDF and a
50-character job description. -/
def readyState : AppState :=
  { selectedFile := some testFile, jobDescription := a50,
    isAnalyzing := false, results := none, error := none }

/-- Claim C8, witness: the lifecycle theorem applied to the concrete
ready state with a successful network outcome, and the invariant applied
to the initial state. -/
theorem C8_witness :
    (handleAnalyzeRun readyState (AxiosOutcome.success Json.null)).isAnalyzing
      = false ∧
    ¬ (initialState.results.isSome = true ∧ initialState.error.isSome = true) :=
  ⟨(C8_analyze_lifecycle.1 readyState (AxiosOutcome.success Json.null)
      testFile rfl (by decide)).2.1,
   C8_analyze_lifecycle.2 initialState Reachable.init⟩

/-- Claim C9, counterexample: when the server responds with an error
status whose body carries an `error` field that is present but equal to
the empty string, the thrown message is the fixed text `Analysis failed`,
not the value of the field — the JavaScript or-operator falls through on
the empty string, so the claim (exactly the error field whenever present)
fails here. -/
theorem C9_counterexample :
    analyzeResume (AxiosOutcome.errorResponse (some "")) =
      Except.error "Analysis failed" ∧
    ("Analysis failed" : String) ≠ "" := by
  exact ⟨rfl, by decide⟩

/-- Claim C9, amended: `analyzeResume` never silently recovers — on
success it returns the body, on a server error response it throws exactly
the `error` field of the body when that field is present and non-empty and
the fixed `Analysis failed` when it is absent or empty, the fixed
connection message when no response was received, and a generic message
otherwise; every thrown message is non-empty, so the App displays it
unchanged. -/
theorem C9_error_mapping :
    (∀ data, analyzeResume (AxiosOutcome.success data) = Except.ok data)
    ∧ (∀ s, s ≠ "" →
        analyzeResume (AxiosOutcome.errorResponse (some s)) = Except.error s)
    ∧ analyzeResume (AxiosOutcome.errorResponse (some "")) =
        Except.error "Analysis failed"
    ∧ analyzeResume (AxiosOutcome.errorResponse none) =
        Except.error "Analysis failed"
    ∧ analyzeResume AxiosOutcome.errorNoResponse =
        Except.error "Unable to connect to the server. Please try again."
    ∧ analyzeResume AxiosOutcome.errorSetup =
        Except.error "An unexpected error occurred"
    ∧ (∀ o m, analyzeResume o = Except.error m →
        m ≠ "" ∧ displayedError m = m) := by
  refine ⟨fun data => rfl, ?_, rfl, rfl, rfl, rfl, ?_⟩
  · intro s hs
    simp [analyzeResume, hs]
  · intro o m hm
    have hne : m ≠ "" := by
      cases o with
      | success data => simp [analyzeResume] at hm
      | errorResponse errField =>
        cases errField with
        | none =>
          simp [analyzeResume] at hm
          subst hm; decide
        | some s =>
          by_cases hs : s = ""
          · subst hs
            simp [analyzeResume] at hm
            subst hm; decide
          · simp [analyzeResume, hs] at hm
            subst hm; exact hs
      | errorNoResponse =>
        simp [analyzeResume] at hm
        subst hm; decide
      | errorSetup =>
        simp [analyzeResume] at hm
        subst hm; decide
    exact ⟨hne, by simp [displayedError, hne]⟩

/-- Claim C9, witness: a server error body with a non-empty detail is
surfaced verbatim and displayed unchanged by the App. -/
theorem C9_witness :
    analyzeResume (AxiosOutcome.errorResponse (some "No file part")) =
      Except.error "No file part" ∧
    displayedError "No file part" = "No file part" :=
  ⟨C9_error_mapping.2.1 "No file part" (by decide),
   (C9_error_mapping.2.2.2.2.2.2 (AxiosOutcome.errorResponse (some "No file part"))
      "No file part"
      (C9_error_mapping.2.1 "No file part" (by decide))).2⟩

/-- Claim C10: every file selection or removal and every edit of the
job-description text resets both the stored results and the stored error
to null, whatever the previous state was. -/
theorem C10_inputs_clear_outputs (s : AppState) (file : Option JFile)
    (v : String) :
    (appHandleFileSelect s file).results = none ∧
    (appHandleFileSelect s file).error = none ∧
    (appHandleJobChange s v).results = none ∧
    (appHandleJobChange s v).error = none :=
  ⟨rfl, rfl, rfl, rfl⟩

end ResuScan
